import Mathlib

/-!
Verification of the DVM/measure polling layer of `oscope_scpi/keysight.py`
and the NPZ→CSV converter `oscopecsv.py`, as a shallow embedding.

Instrument I/O is modelled as a trace of SCPI commands (writes and queries),
with the instrument's replies supplied by a response oracle.  Wall-clock time
in the DVM poll loop is modelled by an `elapsed` function giving the duration
measured at the top of each loop iteration; the poll loop itself is fuel-bounded
(`none` = the loop did not terminate within the given fuel).  Settle-time
`sleep` calls have no observable effect in this model and are not recorded.
-/

namespace OscopeScpi

/-- A SCPI exchange with the instrument: `_instWrite` or `_instQuery` /
`_instQueryNumber` of the given command string. -/
inductive Cmd
  | write (s : String)
  | query (s : String)
deriving DecidableEq, Repr

/-- A Python channel-like value as used for `self.channel` and the `channel`
parameter: `None`, a string, or a list (of strings). -/
inductive PyVal
  | none
  | str (s : String)
  | list (l : List String)
deriving DecidableEq, Repr

/-- Python `type(v) is list`. -/
def PyVal.isList : PyVal → Bool
  | .list _ => true
  | _ => false

/-- Python `v is None`. -/
def PyVal.isNone : PyVal → Bool
  | .none => true
  | _ => false

/-- Python `v in xs` where `xs` is a list of strings: only a string can be a
member; `None` or a list compare unequal to every string. -/
def PyVal.mem (v : PyVal) (xs : List String) : Bool :=
  match v with
  | .str s => xs.contains s
  | _ => false

/-- Instrument response oracle: the replies the scripted instrument gives to
each query a single call can issue.  `dvmCurrentResp k` is the reply to the
`(k+1)`-st `DVM:CURRent?` query of the call. -/
structure Instr where
  dvmEnabledResp : String
  dvmSourceResp : String
  dvmCurrentResp : Nat → ℚ
  dvmFreqResp : ℚ
  measSourceResp : String
  measResp : ℚ

/-- The instance state of the `Keysight` object that the modelled methods read
or write: `_max_chan`, `OverRange`, `self.channel`, `_version`,
`_annotationText` and `_annotationColor`. -/
structure ScopeState where
  maxChan : Nat
  overRange : ℚ
  channel : PyVal
  version : ℚ
  annotationText : String
  annotationColor : String
deriving DecidableEq, Repr

/-- Modelled from the spec: `channelStr` of the parent class `Oscilloscope`
(not under `src/`); the SCPI command surface (§6) uses `CHAN<n>` tokens for
analog channels, so `channelStr c = "CHAN" ++ c`. -/
def channelStr (c : String) : String := "CHAN" ++ c

/-- Modelled from the spec: `_chanNumber` of the parent class `Oscilloscope`
(not under `src/`); the spec (§9) calls it "a channel-number parser" that
normalizes the instrument's `CHAN<n>` reply before comparing, so it strips a
leading `CHAN` token and returns the numeric part. -/
def _chanNumber (s : String) : String :=
  if "CHAN".data.isPrefixOf s.data then s.drop 4 else s

/-- Modelled from the spec: `_1OR0` of the parent class `Oscilloscope`
(not under `src/`): parses an instrument boolean reply such as the answer to
`DVM:ENABle?` (step 1 of §4.1 branches on whether the DVM subsystem is
enabled). -/
def _1OR0 (s : String) : Bool := "1".data.isPrefixOf s.data

/-- `self._chanAnaValidList = [str(x) for x in range(1, self._max_chan+1)]`. -/
def _chanAnaValidList (maxChan : Nat) : List String :=
  (List.range maxChan).map (fun i => toString (i + 1))

/-- `self._chanAllValidList = [self.channelStr(x) for x in range(1, self._max_chan+1)]
    + ['POD1','POD2']`. -/
def _chanAllValidList (maxChan : Nat) : List String :=
  (List.range maxChan).map (fun i => channelStr (toString (i + 1))) ++ ["POD1", "POD2"]

/-- Result of a call: a returned value, a raised Python exception, or
non-termination of the poll loop (fuel exhaustion in the model). -/
inductive Outcome
  | ok (val : ℚ)
  | err (msg : String)
  | diverged
deriving DecidableEq, Repr

/-- `true` exactly when the call raised. -/
def Outcome.isErr : Outcome → Bool
  | .err _ => true
  | _ => false

/-- A finished call: its outcome, the instance state afterwards, and the trace
of SCPI commands issued, in order. -/
structure RunResult where
  outcome : Outcome
  state : ScopeState
  trace : List Cmd
deriving Repr

/-- `DVMisEnabled` of `keysight.py`: queries `DVM:ENABle?` and parses the reply
with `_1OR0`.  Returns the parsed boolean and the trace of the call. -/
def DVMisEnabled (instr : Instr) : Bool × List Cmd :=
  (_1OR0 instr.dvmEnabledResp, [Cmd.query "DVM:ENABle?"])

/-- `enableDVM` of `keysight.py`: one `DVM:ENABLE ON` / `DVM:ENABLE OFF`
write. -/
def enableDVM (enable : Bool) : List Cmd :=
  if enable then [Cmd.write "DVM:ENABLE ON"] else [Cmd.write "DVM:ENABLE OFF"]

/-- The `while (val >= self.OverRange)` poll loop of `_readDVM`
(`keysight.py` lines 310–320).  `k` counts the `DVM:CURRent?` queries issued
so far, `val` is the current value; `elapsed k` is `duration.total_seconds()`
as measured at the top of the iteration in which `k` queries have already been
issued.  Returns the final value together with the total number of
`DVM:CURRent?` queries, or `none` when `fuel` iterations did not suffice. -/
def dvmPoll (instr : Instr) (elapsed : Nat → ℚ) (timeout : Option ℚ)
    (overRange : ℚ) : Nat → Nat → ℚ → Option (ℚ × Nat)
  | 0, _, _ => Option.none
  | fuel + 1, k, val =>
    if overRange ≤ val then
      match timeout with
      | Option.some t =>
        if t ≤ elapsed k then
          Option.some (val, k)
        else
          dvmPoll instr elapsed timeout overRange fuel (k + 1) (instr.dvmCurrentResp k)
      | Option.none =>
        dvmPoll instr elapsed timeout overRange fuel (k + 1) (instr.dvmCurrentResp k)
    else
      Option.some (val, k)

/-- `_readDVM` of `keysight.py` (lines 258–326): channel validation, DVM
enable check, conditional source switch, mode write, the poll loop, and the
dedicated `DVM:FREQ?` query in `FREQ` mode.  The `wait` sleep is not
observable in this model and is omitted. -/
def _readDVM (st : ScopeState) (instr : Instr) (elapsed : Nat → ℚ) (fuel : Nat)
    (mode : String) (channel : PyVal) (timeout : Option ℚ) : RunResult :=
  let st1 := if ¬ channel.isNone ∧ ¬ channel.isList then { st with channel := channel } else st
  if st1.channel.isList || channel.isList then
    ⟨.err "Channel cannot be a list for DVM!", st1, []⟩
  else if ! st1.channel.mem (_chanAnaValidList st1.maxChan) then
    ⟨.err "INVALID Channel Value for DVM", st1, []⟩
  else
    let ch := match st1.channel with
      | .str s => s
      | _ => ""
    let (en, enTrace) := DVMisEnabled instr
    let enTrace := if ! en then enTrace ++ enableDVM true else enTrace
    let srcTrace :=
      if _chanNumber instr.dvmSourceResp ≠ ch then
        [Cmd.query "DVM:SOURce?", Cmd.write ("DVM:SOURce " ++ channelStr ch)]
      else
        [Cmd.query "DVM:SOURce?"]
    let modeTrace := [Cmd.write ("DVM:MODE " ++ mode)]
    match dvmPoll instr elapsed timeout st1.overRange fuel 0 st1.overRange with
    | Option.none => ⟨.diverged, st1, enTrace ++ srcTrace ++ modeTrace⟩
    | Option.some (val, n) =>
      let pollTrace := List.replicate n (Cmd.query "DVM:CURRent?")
      if mode = "FREQ" then
        ⟨.ok instr.dvmFreqResp, st1,
          enTrace ++ srcTrace ++ modeTrace ++ pollTrace ++ [Cmd.query "DVM:FREQ?"]⟩
      else
        ⟨.ok val, st1, enTrace ++ srcTrace ++ modeTrace ++ pollTrace⟩

/-- `measureDVMacrms` of `keysight.py`. -/
def measureDVMacrms (st : ScopeState) (instr : Instr) (elapsed : Nat → ℚ)
    (fuel : Nat) (channel : PyVal) (timeout : Option ℚ) : RunResult :=
  _readDVM st instr elapsed fuel "ACRM" channel timeout

/-- `measureDVMdc` of `keysight.py`. -/
def measureDVMdc (st : ScopeState) (instr : Instr) (elapsed : Nat → ℚ)
    (fuel : Nat) (channel : PyVal) (timeout : Option ℚ) : RunResult :=
  _readDVM st instr elapsed fuel "DC" channel timeout

/-- `measureDVMdcrms` of `keysight.py`. -/
def measureDVMdcrms (st : ScopeState) (instr : Instr) (elapsed : Nat → ℚ)
    (fuel : Nat) (channel : PyVal) (timeout : Option ℚ) : RunResult :=
  _readDVM st instr elapsed fuel "DCRM" channel timeout

/-- `measureDVMfreq` of `keysight.py` (its default `timeout=3` is a caller
default; the parameter is passed through unchanged). -/
def measureDVMfreq (st : ScopeState) (instr : Instr) (elapsed : Nat → ℚ)
    (fuel : Nat) (channel : PyVal) (timeout : Option ℚ) : RunResult :=
  _readDVM st instr elapsed fuel "FREQ" channel timeout

/-- `_measure` of `keysight.py` (lines 407–467): channel validation against
the full valid list, conditional raw-string source switch, optional install
writes, and exactly one measurement query whose numeric reply is returned.
The `wait` sleep is not observable in this model and is omitted. -/
def _measure (st : ScopeState) (instr : Instr) (mode : String)
    (para : Option String) (channel : PyVal) (install : Bool) : RunResult :=
  let st1 := if ¬ channel.isNone ∧ ¬ channel.isList then { st with channel := channel } else st
  if st1.channel.isList || channel.isList then
    ⟨.err "Channel cannot be a list for MEASURE!", st1, []⟩
  else if ! st1.channel.mem (_chanAllValidList st1.maxChan) then
    ⟨.err "INVALID Channel Value for MEASURE", st1, []⟩
  else
    let ch := match st1.channel with
      | .str s => s
      | _ => ""
    let srcTrace :=
      if instr.measSourceResp ≠ ch then
        [Cmd.query "MEASure:SOURce?", Cmd.write ("MEASure:SOURce " ++ ch)]
      else
        [Cmd.query "MEASure:SOURce?"]
    let strWr :=
      match para with
      | Option.some p => if p = "" then "MEASure:" ++ mode else "MEASure:" ++ mode ++ " " ++ p
      | Option.none => "MEASure:" ++ mode
    let strQu :=
      match para with
      | Option.some p => if p = "" then "MEASure:" ++ mode ++ "?" else "MEASure:" ++ mode ++ "? " ++ p
      | Option.none => "MEASure:" ++ mode ++ "?"
    let installTrace :=
      if install then [Cmd.write "MEASure:STATistics:DISPlay ON", Cmd.write strWr] else []
    ⟨.ok instr.measResp, st1, srcTrace ++ installTrace ++ [Cmd.query strQu]⟩

/-- `measureBitRate` of `keysight.py`. -/
def measureBitRate (st : ScopeState) (instr : Instr) (channel : PyVal) (install : Bool) : RunResult :=
  _measure st instr "BRATe" Option.none channel install

/-- `measureBurstWidth` of `keysight.py`. -/
def measureBurstWidth (st : ScopeState) (instr : Instr) (channel : PyVal) (install : Bool) : RunResult :=
  _measure st instr "BWIDth" Option.none channel install

/-- `measureCounterFrequency` of `keysight.py` (always passes `install=False`). -/
def measureCounterFrequency (st : ScopeState) (instr : Instr) (channel : PyVal) (_install : Bool) : RunResult :=
  _measure st instr "COUNter" Option.none channel false

/-- `measurePosDutyCycle` of `keysight.py`. -/
def measurePosDutyCycle (st : ScopeState) (instr : Instr) (channel : PyVal) (install : Bool) : RunResult :=
  _measure st instr "DUTYcycle" Option.none channel install

/-- `measureFallTime` of `keysight.py`. -/
def measureFallTime (st : ScopeState) (instr : Instr) (channel : PyVal) (install : Bool) : RunResult :=
  _measure st instr "FALLtime" Option.none channel install

/-- `measureRiseTime` of `keysight.py`. -/
def measureRiseTime (st : ScopeState) (instr : Instr) (channel : PyVal) (install : Bool) : RunResult :=
  _measure st instr "RISetime" Option.none channel install

/-- `measureFrequency` of `keysight.py`. -/
def measureFrequency (st : ScopeState) (instr : Instr) (channel : PyVal) (install : Bool) : RunResult :=
  _measure st instr "FREQ" Option.none channel install

/-- `measureNegDutyCycle` of `keysight.py`. -/
def measureNegDutyCycle (st : ScopeState) (instr : Instr) (channel : PyVal) (install : Bool) : RunResult :=
  _measure st instr "NDUTy" Option.none channel install

/-- `measureFallEdgeCount` of `keysight.py`. -/
def measureFallEdgeCount (st : ScopeState) (instr : Instr) (channel : PyVal) (install : Bool) : RunResult :=
  _measure st instr "NEDGes" Option.none channel install

/-- `measureFallPulseCount` of `keysight.py`. -/
def measureFallPulseCount (st : ScopeState) (instr : Instr) (channel : PyVal) (install : Bool) : RunResult :=
  _measure st instr "NPULses" Option.none channel install

/-- `measureNegPulseWidth` of `keysight.py`. -/
def measureNegPulseWidth (st : ScopeState) (instr : Instr) (channel : PyVal) (install : Bool) : RunResult :=
  _measure st instr "NWIDth" Option.none channel install

/-- `measureOvershoot` of `keysight.py`. -/
def measureOvershoot (st : ScopeState) (instr : Instr) (channel : PyVal) (install : Bool) : RunResult :=
  _measure st instr "OVERshoot" Option.none channel install

/-- `measurePreshoot` of `keysight.py`. -/
def measurePreshoot (st : ScopeState) (instr : Instr) (channel : PyVal) (install : Bool) : RunResult :=
  _measure st instr "PREShoot" Option.none channel install

/-- `measureRiseEdgeCount` of `keysight.py`. -/
def measureRiseEdgeCount (st : ScopeState) (instr : Instr) (channel : PyVal) (install : Bool) : RunResult :=
  _measure st instr "PEDGes" Option.none channel install

/-- `measureRisePulseCount` of `keysight.py`. -/
def measureRisePulseCount (st : ScopeState) (instr : Instr) (channel : PyVal) (install : Bool) : RunResult :=
  _measure st instr "PPULses" Option.none channel install

/-- `measurePosPulseWidth` of `keysight.py`. -/
def measurePosPulseWidth (st : ScopeState) (instr : Instr) (channel : PyVal) (install : Bool) : RunResult :=
  _measure st instr "PWIDth" Option.none channel install

/-- `measurePeriod` of `keysight.py`. -/
def measurePeriod (st : ScopeState) (instr : Instr) (channel : PyVal) (install : Bool) : RunResult :=
  _measure st instr "PERiod" Option.none channel install

/-- `measureVoltAmplitude` of `keysight.py`. -/
def measureVoltAmplitude (st : ScopeState) (instr : Instr) (channel : PyVal) (install : Bool) : RunResult :=
  _measure st instr "VAMPlitude" Option.none channel install

/-- `measureVoltAverage` of `keysight.py` (passes `para="DISPlay"`). -/
def measureVoltAverage (st : ScopeState) (instr : Instr) (channel : PyVal) (install : Bool) : RunResult :=
  _measure st instr "VAVerage" (Option.some "DISPlay") channel install

/-- `measureVoltRMS` of `keysight.py` (passes `para="DISPlay"`). -/
def measureVoltRMS (st : ScopeState) (instr : Instr) (channel : PyVal) (install : Bool) : RunResult :=
  _measure st instr "VRMS" (Option.some "DISPlay") channel install

/-- `measureVoltBase` of `keysight.py`. -/
def measureVoltBase (st : ScopeState) (instr : Instr) (channel : PyVal) (install : Bool) : RunResult :=
  _measure st instr "VBASe" Option.none channel install

/-- `measureVoltTop` of `keysight.py`. -/
def measureVoltTop (st : ScopeState) (instr : Instr) (channel : PyVal) (install : Bool) : RunResult :=
  _measure st instr "VTOP" Option.none channel install

/-- `measureVoltMax` of `keysight.py`. -/
def measureVoltMax (st : ScopeState) (instr : Instr) (channel : PyVal) (install : Bool) : RunResult :=
  _measure st instr "VMAX" Option.none channel install

/-- `measureVoltMin` of `keysight.py`. -/
def measureVoltMin (st : ScopeState) (instr : Instr) (channel : PyVal) (install : Bool) : RunResult :=
  _measure st instr "VMIN" Option.none channel install

/-- `measureVoltPP` of `keysight.py`. -/
def measureVoltPP (st : ScopeState) (instr : Instr) (channel : PyVal) (install : Bool) : RunResult :=
  _measure st instr "VPP" Option.none channel install

/-- `_colorNameOldtoNew` of `keysight.py`: the legacy-to-new color-name
translation table, as an association list in source order. -/
def _colorNameOldtoNew : List (String × String) :=
  [("ch1", "CHAN1"), ("ch2", "CHAN2"), ("ch3", "CHAN3"), ("ch4", "CHAN4"),
   ("ch5", "CHAN5"), ("ch6", "CHAN6"), ("ch7", "CHAN7"), ("ch8", "CHAN8"),
   ("dig", "DCH"), ("math", "FUNC1"), ("ref", "WMEM"), ("marker", "MARK"),
   ("white", "FUNC14"), ("red", "FUNC12")]

/-- The `DISPlay:BOOKmark1:SET` command string built at `keysight.py`
lines 145–148: `'DISPlay:BOOKmark1:SET NONE,"{}",{},"{}"'.format(text, color, text)`. -/
def bookmarkSetCmd (text color : String) : String :=
  "DISPlay:BOOKmark1:SET NONE,\x22" ++ text ++ "\x22," ++ color ++ ",\x22" ++ text ++ "\x22"

/-- `annotateColor` of `keysight.py` (lines 122–152).  On the `> 2.60`
(bookmark) protocol it saves the color when one is given, writes the two
bookmark position commands, then writes the bookmark-set command whose color
field is the dictionary translation of the saved color (a missing dictionary
key is Python's `KeyError`, modelled as `Outcome.err`, raised after the two
position writes).  On the legacy protocol it writes `DISPlay:ANN:COLor` only
when a color is given.  The returned value slot is unused (`ok 0`). -/
def annotateColor (st : ScopeState) (color : Option String) : RunResult :=
  if 2.60 < st.version then
    let st1 := match color with
      | Option.some c => { st with annotationColor := c }
      | Option.none => st
    let posTrace := [Cmd.write "DISPlay:BOOKmark1:XPOSition 0.015",
                     Cmd.write "DISPlay:BOOKmark1:YPOSition 0.06"]
    match _colorNameOldtoNew.lookup st1.annotationColor with
    | Option.some newColor =>
      ⟨.ok 0, st1, posTrace ++ [Cmd.write (bookmarkSetCmd st1.annotationText newColor)]⟩
    | Option.none => ⟨.err "KeyError", st1, posTrace⟩
  else
    match color with
    | Option.some c => ⟨.ok 0, st, [Cmd.write ("DISPlay:ANN:COLor " ++ c)]⟩
    | Option.none => ⟨.ok 0, st, []⟩

/-!
The NPZ→CSV converter `oscopecsv.py`.
-/

/-- Decimal exponent of the magnitude of a nonzero rational: the unique `e`
with `10^e ≤ |v| < 10^(e+1)`, computed from the decimal digit counts of
numerator and denominator.  Used to model the C `%e` conversion that
`numpy.savetxt` applies. -/
def decimalExp (v : ℚ) : ℤ :=
  let p := v.num.natAbs
  let q := v.den
  let e0 : ℤ := ((Nat.toDigits 10 p).length : ℤ) - ((Nat.toDigits 10 q).length : ℤ)
  if 0 ≤ e0 then
    if 10 ^ e0.toNat * q ≤ p then e0 else e0 - 1
  else
    if q ≤ p * 10 ^ (-e0).toNat then e0 else e0 - 1

/-- Models the C `%.18e` conversion applied by `numpy.savetxt` (whose
documented default format is `fmt='%.18e'`): scientific notation with one
leading digit, 18 fraction digits, and a signed two-digit-minimum exponent.
Exact for the integer-valued inputs considered here (which are exactly
representable as float64); the half-up rounding used for the 19-digit
mantissa differs from float64 semantics only on values where the decimal
expansion of the float ties or exceeds 19 significant digits, which does not
arise at the inputs of the claims. -/
def fmtE18 (v : ℚ) : String :=
  if v = 0 then "0.000000000000000000e+00"
  else
    let sgn := if v < 0 then "-" else ""
    let p := v.num.natAbs
    let q := v.den
    let e := decimalExp v
    let N := if 0 ≤ e then p * 10 ^ 18 else p * 10 ^ 18 * 10 ^ (-e).toNat
    let D := if 0 ≤ e then q * 10 ^ e.toNat else q
    let m := (2 * N + D) / (2 * D)
    let me : ℕ × ℤ := if m = 10 ^ 19 then (10 ^ 18, e + 1) else (m, e)
    let ds := Nat.toDigits 10 me.1
    let esign := if me.2 < 0 then "-" else "+"
    let ea := me.2.natAbs
    let eds := Nat.toDigits 10 ea
    let eds := if ea < 10 then '0' :: eds else eds
    sgn ++ String.mk (ds.take 1 ++ ['.'] ++ ds.drop 1) ++ "e" ++ esign ++ String.mk eds

/-- One output row of `np.savetxt(..., delimiter=",")`: the row's values
formatted with the default `%.18e` and joined by commas. -/
def savetxtLine (row : List ℚ) : String :=
  String.intercalate "," (row.map fmtE18)

/-- The full file content `np.savetxt` writes: one `\n`-terminated line per
row. -/
def savetxtContent (rows : List (List ℚ)) : String :=
  String.join (rows.map (fun r => savetxtLine r ++ "\n"))

/-- Effect of one run of `oscopecsv.py`: the `.csv` file content if one was
written, the error messages printed, and the process exit code. -/
structure CsvRun where
  written : Option String
  errors : List String
  exitCode : Nat
deriving Repr

/-- The error message printed by `oscopecsv.py` line 60. -/
def csvMismatchMsg (nx ny : Nat) : String :=
  "ERROR: Number of x (" ++ Nat.repr nx ++ ") and y (" ++ Nat.repr ny ++
    ") values do not match!"

/-- The effectful tail of `oscopecsv.py` (lines 56–61), after the arrays `x`
and `y` have been loaded: if the lengths match, `np.asarray([x, y]).T` (the
list of pairs `[x i, y i]`) is written as CSV with `np.savetxt`; otherwise an
error message is printed, no file is written, and the script still ends with
the implicit exit code 0. -/
def oscopecsvMain (x y : List ℚ) : CsvRun :=
  if x.length = y.length then
    { written := Option.some (savetxtContent ((List.zip x y).map (fun p => [p.1, p.2]))),
      errors := [], exitCode := 0 }
  else
    { written := Option.none, errors := [csvMismatchMsg x.length y.length], exitCode := 0 }

/-!
Trace observation helpers and shared lemmas.
-/

/-- `true` on the `DVM:CURRent?` poll query. -/
def Cmd.isCurrentQuery : Cmd → Bool
  | .query s => s == "DVM:CURRent?"
  | _ => false

/-- `true` on the dedicated `DVM:FREQ?` query. -/
def Cmd.isFreqQuery : Cmd → Bool
  | .query s => s == "DVM:FREQ?"
  | _ => false

/-- `true` on any query. -/
def Cmd.isQuery : Cmd → Bool
  | .query _ => true
  | _ => false

/-- `true` on any write of a `DVM:SOURce …` source-switch command. -/
def Cmd.isDVMSourceWrite : Cmd → Bool
  | .write s => "DVM:SOURce".data.isPrefixOf s.data
  | _ => false

lemma countP_replicate (p : Cmd → Bool) (n : Nat) (a : Cmd) :
    (List.replicate n a).countP p = if p a then n else 0 := by
  induction n with
  | zero => simp
  | succ k ih =>
    rw [List.replicate_succ, List.countP_cons, ih]
    by_cases h : p a <;> simp [h]

/-- If the instrument replies the sentinel to the first `N` poll queries and a
value strictly below it to query `N+1`, the untimed poll loop started at the
sentinel stops after exactly `N+1` queries with that valid value (given enough
fuel). -/
lemma dvmPoll_none_valid (instr : Instr) (elapsed : Nat → ℚ) (overRange : ℚ)
    (N : Nat) :
    ∀ fuel k val, N + 2 ≤ fuel → overRange ≤ val →
      (∀ j, j < N → instr.dvmCurrentResp (k + j) = overRange) →
      instr.dvmCurrentResp (k + N) < overRange →
      dvmPoll instr elapsed Option.none overRange fuel k val =
        Option.some (instr.dvmCurrentResp (k + N), k + N + 1) := by
  induction N with
  | zero =>
    intro fuel k val hfuel hval _ hvalid
    obtain ⟨f, rfl⟩ : ∃ f, fuel = f + 2 := ⟨fuel - 2, by omega⟩
    simp only [Nat.add_zero] at hvalid ⊢
    rw [show f + 2 = (f + 1) + 1 from rfl, dvmPoll, if_pos hval]
    rw [dvmPoll, if_neg (not_le.mpr hvalid)]
  | succ N ih =>
    intro fuel k val hfuel hval hsent hvalid
    obtain ⟨f, rfl⟩ : ∃ f, fuel = f + 1 := ⟨fuel - 1, by omega⟩
    rw [dvmPoll, if_pos hval]
    have h0 : instr.dvmCurrentResp k = overRange := by
      have := hsent 0 (Nat.succ_pos N)
      simpa using this
    have := ih f (k + 1) (instr.dvmCurrentResp k) (by omega) (le_of_eq h0.symm)
      (fun j hj => by
        have := hsent (j + 1) (by omega)
        simpa [Nat.add_assoc, Nat.add_comm 1 j] using this)
      (by
        have : k + 1 + N = k + (N + 1) := by omega
        rw [this]; exact hvalid)
    rw [this]
    have : k + 1 + N = k + (N + 1) := by omega
    rw [this]

@[simp] lemma isCurrentQuery_write (s : String) :
    Cmd.isCurrentQuery (Cmd.write s) = false := rfl

@[simp] lemma isCurrentQuery_enable :
    Cmd.isCurrentQuery (Cmd.query "DVM:ENABle?") = false := by decide

@[simp] lemma isCurrentQuery_source :
    Cmd.isCurrentQuery (Cmd.query "DVM:SOURce?") = false := by decide

@[simp] lemma isCurrentQuery_freq :
    Cmd.isCurrentQuery (Cmd.query "DVM:FREQ?") = false := by decide

@[simp] lemma isCurrentQuery_current :
    Cmd.isCurrentQuery (Cmd.query "DVM:CURRent?") = true := by decide

/-- A concrete state for witnesses: 4 channels, over-range sentinel 99,
current channel `"1"`, firmware version 3. -/
def tState : ScopeState := ⟨4, 99, PyVal.str "1", 3, "note", "ch1"⟩

/-- A concrete scripted instrument for witnesses: DVM enabled, source already
`CHAN1`, sentinel replies to the first two `DVM:CURRent?` queries and `5`
afterwards, frequency-counter reply `42`, measurement reply `7`. -/
def tInstr : Instr := ⟨"1", "CHAN1", fun k => if k < 2 then 99 else 5, 42, "CHAN1", 7⟩

/-- A concrete wall clock for witnesses: the duration check of poll
iteration `k` reads `k` seconds. -/
def tElapsed : Nat → ℚ := fun k => (k : ℚ)

/-- Claim C1: for every `N ≥ 0`, if the instrument returns the over-range
sentinel for the first `N` `DVM:CURRent?` queries and a value strictly below
the sentinel on query `N+1`, then `_readDVM` with `timeout=None` and a
non-`FREQ` mode returns that valid value and issues exactly `N+1`
`DVM:CURRent?` queries. -/
theorem c1_readDVM_untimed_poll_returns_valid
    (st : ScopeState) (instr : Instr) (elapsed : Nat → ℚ) (fuel N : Nat)
    (mode ch : String)
    (hch : ch ∈ _chanAnaValidList st.maxChan)
    (hmode : mode ≠ "FREQ")
    (hfuel : N + 2 ≤ fuel)
    (hsent : ∀ j, j < N → instr.dvmCurrentResp j = st.overRange)
    (hvalid : instr.dvmCurrentResp N < st.overRange) :
    (_readDVM st instr elapsed fuel mode (PyVal.str ch) Option.none).outcome
        = Outcome.ok (instr.dvmCurrentResp N) ∧
    (_readDVM st instr elapsed fuel mode (PyVal.str ch) Option.none).trace.countP
        Cmd.isCurrentQuery = N + 1 := by
  have hpoll := dvmPoll_none_valid instr elapsed st.overRange N fuel 0 st.overRange
    hfuel le_rfl (fun j hj => by simpa using hsent j hj) (by simpa using hvalid)
  simp only [Nat.zero_add] at hpoll
  simp only [_readDVM, DVMisEnabled, enableDVM]
  simp [PyVal.isNone, PyVal.isList, PyVal.mem, hch]
  rw [hpoll]
  simp [if_neg hmode, List.countP_append, countP_replicate, List.countP_cons]
  by_cases h1 : _1OR0 instr.dvmEnabledResp <;>
    by_cases h2 : _chanNumber instr.dvmSourceResp = ch <;>
      simp [h1, h2]

/-- Witness for C1 at `N = 2`: the scripted instrument `tInstr` answers the
sentinel twice and then `5`; the call returns `5` after exactly three
`DVM:CURRent?` queries. -/
theorem c1_readDVM_untimed_poll_returns_valid_witness :
    (_readDVM tState tInstr tElapsed 4 "DC" (PyVal.str "1") Option.none).outcome
        = Outcome.ok 5 ∧
    (_readDVM tState tInstr tElapsed 4 "DC" (PyVal.str "1") Option.none).trace.countP
        Cmd.isCurrentQuery = 3 := by
  have h := c1_readDVM_untimed_poll_returns_valid tState tInstr tElapsed 4 2 "DC" "1"
    (by decide) (by decide) (by decide)
    (fun j hj => by simp [tInstr, tState, hj])
    (by simp [tInstr, tState]; norm_num)
  simpa [tInstr] using h

/-- If the deadline is crossed for the first time at duration check `M`
(all earlier checks read a duration strictly below the timeout) and each of
the `M` queries issued before it returned the sentinel, the timed poll loop
started at the sentinel breaks at check `M` and yields the sentinel after
exactly `M` queries. -/
lemma dvmPoll_deadline (instr : Instr) (elapsed : Nat → ℚ) (t overRange : ℚ) (M : Nat)
    (hM : t ≤ elapsed M)
    (hbefore : ∀ j, j < M → elapsed j < t)
    (hresp : ∀ j, j < M → instr.dvmCurrentResp j = overRange) :
    ∀ fuel k, k ≤ M → M + 1 ≤ fuel + k →
      dvmPoll instr elapsed (Option.some t) overRange fuel k overRange =
        Option.some (overRange, M) := by
  intro fuel
  induction fuel with
  | zero => intro k hk hf; omega
  | succ f ih =>
    intro k hk hf
    rw [dvmPoll, if_pos le_rfl]
    by_cases hkM : k = M
    · subst hkM
      rw [if_pos hM]
    · have hklt : k < M := lt_of_le_of_ne hk hkM
      rw [if_neg (not_le.mpr (hbefore k hklt)), hresp k hklt]
      exact ih (k + 1) (by omega) (by omega)

/-- The scripted instrument of the C2 counterexample: every `DVM:CURRent?`
reply is the sentinel `99`. -/
def t2Instr : Instr := { tInstr with dvmCurrentResp := fun _ => 99 }

/-- Counterexample to claim C2 as stated: a `_readDVM` call with numeric
timeout `2` in mode `FREQ`, where every `DVM:CURRent?` query issued before
the deadline returns the over-range sentinel `99`, returns the `DVM:FREQ?`
value `42` — not the last-seen sentinel — so the sentinel is not the timeout
signal for frequency-mode calls. -/
theorem c2_counterexample_freq_mode_returns_freq_value :
    (_readDVM tState t2Instr tElapsed 10 "FREQ" (PyVal.str "1") (Option.some 2)).outcome
        = Outcome.ok 42 ∧
    Outcome.ok (42 : ℚ) ≠ Outcome.ok (99 : ℚ) ∧
    tState.overRange = 99 := by
  refine ⟨by decide, by decide, by decide⟩

/-- Claim C2 as amended: with a numeric timeout, if every query up to the
timeout deadline returns the over-range sentinel, the call returns normally
(no exception): in a non-`FREQ` mode it returns the last-seen sentinel value,
while in `FREQ` mode it returns the final dedicated `DVM:FREQ?` value.  `M`
is the first duration check at which the deadline has passed. -/
theorem c2_timed_poll_timeout_returns_silently
    (st : ScopeState) (instr : Instr) (elapsed : Nat → ℚ) (fuel M : Nat)
    (mode ch : String) (t : ℚ)
    (hch : ch ∈ _chanAnaValidList st.maxChan)
    (hfuel : M + 1 ≤ fuel)
    (hM : t ≤ elapsed M)
    (hbefore : ∀ j, j < M → elapsed j < t)
    (hresp : ∀ j, j < M → instr.dvmCurrentResp j = st.overRange) :
    (_readDVM st instr elapsed fuel mode (PyVal.str ch) (Option.some t)).outcome
      = Outcome.ok (if mode = "FREQ" then instr.dvmFreqResp else st.overRange) := by
  have hpoll := dvmPoll_deadline instr elapsed t st.overRange M hM hbefore hresp fuel 0
    (Nat.zero_le M) (by omega)
  simp only [_readDVM, DVMisEnabled, enableDVM]
  simp [PyVal.isNone, PyVal.isList, PyVal.mem, hch]
  rw [hpoll]
  by_cases hm : mode = "FREQ" <;> simp [hm]

/-- Witness for the amended C2 at `M = 2`: with every reply the sentinel and
a 2-second timeout crossed at the third duration check, a `DC`-mode call
returns the sentinel `99` without raising. -/
theorem c2_timed_poll_timeout_returns_silently_witness :
    (_readDVM tState t2Instr tElapsed 10 "DC" (PyVal.str "1") (Option.some 2)).outcome
      = Outcome.ok 99 := by
  have h := c2_timed_poll_timeout_returns_silently tState t2Instr tElapsed 10 2 "DC" "1" 2
    (by decide) (by decide)
    (by simp [tElapsed])
    (fun j hj => by interval_cases j <;> simp [tElapsed])
    (fun j hj => rfl)
  simpa [tState] using h

@[simp] lemma isDVMSourceWrite_query (s : String) :
    Cmd.isDVMSourceWrite (Cmd.query s) = false := rfl

@[simp] lemma isDVMSourceWrite_switch (s : String) :
    Cmd.isDVMSourceWrite (Cmd.write ("DVM:SOURce " ++ s)) = true := by
  simp [Cmd.isDVMSourceWrite, String.data_append]

@[simp] lemma isDVMSourceWrite_mode (s : String) :
    Cmd.isDVMSourceWrite (Cmd.write ("DVM:MODE " ++ s)) = false := by
  simp [Cmd.isDVMSourceWrite, String.data_append, List.isPrefixOf]

@[simp] lemma isDVMSourceWrite_enable :
    Cmd.isDVMSourceWrite (Cmd.write "DVM:ENABLE ON") = false := by decide

@[simp] lemma isFreqQuery_write (s : String) :
    Cmd.isFreqQuery (Cmd.write s) = false := rfl

@[simp] lemma isFreqQuery_enable :
    Cmd.isFreqQuery (Cmd.query "DVM:ENABle?") = false := by decide

@[simp] lemma isFreqQuery_source :
    Cmd.isFreqQuery (Cmd.query "DVM:SOURce?") = false := by decide

@[simp] lemma isFreqQuery_current :
    Cmd.isFreqQuery (Cmd.query "DVM:CURRent?") = false := by decide

@[simp] lemma isFreqQuery_freq :
    Cmd.isFreqQuery (Cmd.query "DVM:FREQ?") = true := by decide

/-- Claim C4: for every `_readDVM` call with a valid analog channel, no
`DVM:SOURce` write is issued when the queried source already denotes the
requested channel, and exactly one is issued when it differs. -/
theorem c4_readDVM_source_switch_only_when_needed
    (st : ScopeState) (instr : Instr) (elapsed : Nat → ℚ) (fuel : Nat)
    (mode ch : String) (timeout : Option ℚ)
    (hch : ch ∈ _chanAnaValidList st.maxChan) :
    (_chanNumber instr.dvmSourceResp = ch →
      (_readDVM st instr elapsed fuel mode (PyVal.str ch) timeout).trace.countP
        Cmd.isDVMSourceWrite = 0) ∧
    (_chanNumber instr.dvmSourceResp ≠ ch →
      (_readDVM st instr elapsed fuel mode (PyVal.str ch) timeout).trace.countP
        Cmd.isDVMSourceWrite = 1) := by
  simp only [_readDVM, DVMisEnabled, enableDVM]
  simp [PyVal.isNone, PyVal.isList, PyVal.mem, hch]
  constructor <;> intro hsrc <;>
    rcases hp : dvmPoll instr elapsed timeout st.overRange fuel 0 st.overRange with _ | ⟨v, n⟩ <;>
      by_cases h1 : _1OR0 instr.dvmEnabledResp <;>
        by_cases hm : mode = "FREQ" <;>
          simp [hp, h1, hsrc, hm, List.countP_append, countP_replicate, List.countP_cons] <;>
          first
            | decide
            | exact ⟨by decide, by rintro a (⟨-, rfl⟩ | rfl) <;> decide⟩

/-- Witness for C4: with the source reply `CHAN1` and requested channel `"1"`
no source write occurs; with source reply `CHAN2` exactly one occurs. -/
theorem c4_readDVM_source_switch_only_when_needed_witness :
    (_readDVM tState tInstr tElapsed 4 "DC" (PyVal.str "1") Option.none).trace.countP
        Cmd.isDVMSourceWrite = 0 ∧
    (_readDVM tState { tInstr with dvmSourceResp := "CHAN2" } tElapsed 4 "DC"
        (PyVal.str "1") Option.none).trace.countP Cmd.isDVMSourceWrite = 1 :=
  ⟨(c4_readDVM_source_switch_only_when_needed tState tInstr tElapsed 4 "DC" "1"
      Option.none (by decide)).1 (by decide),
   (c4_readDVM_source_switch_only_when_needed tState
      { tInstr with dvmSourceResp := "CHAN2" } tElapsed 4 "DC" "1"
      Option.none (by decide)).2 (by decide)⟩

/-- Claim C5: a `_readDVM` call in mode `FREQ` with a valid channel whose poll
loop terminates (by valid reading or by timeout, with value `v` after `n`
queries) issues exactly one dedicated `DVM:FREQ?` query and returns its value
instead of the generic reading. -/
theorem c5_readDVM_freq_mode_one_freq_query
    (st : ScopeState) (instr : Instr) (elapsed : Nat → ℚ) (fuel : Nat)
    (ch : String) (timeout : Option ℚ) (v : ℚ) (n : Nat)
    (hch : ch ∈ _chanAnaValidList st.maxChan)
    (hpoll : dvmPoll instr elapsed timeout st.overRange fuel 0 st.overRange
        = Option.some (v, n)) :
    (_readDVM st instr elapsed fuel "FREQ" (PyVal.str ch) timeout).outcome
        = Outcome.ok instr.dvmFreqResp ∧
    (_readDVM st instr elapsed fuel "FREQ" (PyVal.str ch) timeout).trace.countP
        Cmd.isFreqQuery = 1 := by
  simp only [_readDVM, DVMisEnabled, enableDVM]
  simp [PyVal.isNone, PyVal.isList, PyVal.mem, hch]
  rw [hpoll]
  by_cases h1 : _1OR0 instr.dvmEnabledResp <;>
    by_cases h2 : _chanNumber instr.dvmSourceResp = ch <;>
      simp [h1, h2, List.countP_append, countP_replicate, List.countP_cons]

/-- Witness for C5: the untimed `FREQ` call against `tInstr` (three polls,
then valid) ends with one `DVM:FREQ?` query and returns its value `42`. -/
theorem c5_readDVM_freq_mode_one_freq_query_witness :
    (_readDVM tState tInstr tElapsed 10 "FREQ" (PyVal.str "1") Option.none).outcome
        = Outcome.ok 42 ∧
    (_readDVM tState tInstr tElapsed 10 "FREQ" (PyVal.str "1") Option.none).trace.countP
        Cmd.isFreqQuery = 1 := by
  have h := c5_readDVM_freq_mode_one_freq_query tState tInstr tElapsed 10 "1"
    Option.none 5 3 (by decide) (by decide)
  simpa [tInstr] using h

@[simp] lemma isQuery_query (s : String) : Cmd.isQuery (Cmd.query s) = true := rfl

@[simp] lemma isQuery_write (s : String) : Cmd.isQuery (Cmd.write s) = false := rfl

/-- A list-valued channel makes `_readDVM` raise before any instrument I/O,
leaving the state unchanged. -/
lemma readDVM_list_rejects (st : ScopeState) (instr : Instr) (elapsed : Nat → ℚ)
    (fuel : Nat) (mode : String) (timeout : Option ℚ) (l : List String) :
    _readDVM st instr elapsed fuel mode (PyVal.list l) timeout =
      ⟨Outcome.err "Channel cannot be a list for DVM!", st, []⟩ := by
  simp [_readDVM, PyVal.isNone, PyVal.isList]

/-- A list-valued channel makes `_measure` raise before any instrument I/O,
leaving the state unchanged. -/
lemma measure_list_rejects (st : ScopeState) (instr : Instr) (mode : String)
    (para : Option String) (install : Bool) (l : List String) :
    _measure st instr mode para (PyVal.list l) install =
      ⟨Outcome.err "Channel cannot be a list for MEASURE!", st, []⟩ := by
  simp [_measure, PyVal.isNone, PyVal.isList]

/-- A string channel outside the analog valid list makes `_readDVM` raise
before any instrument I/O, after `self.channel` has been set to it. -/
lemma readDVM_invalid_str_rejects (st : ScopeState) (instr : Instr) (elapsed : Nat → ℚ)
    (fuel : Nat) (mode : String) (timeout : Option ℚ) (s : String)
    (h : s ∉ _chanAnaValidList st.maxChan) :
    _readDVM st instr elapsed fuel mode (PyVal.str s) timeout =
      ⟨Outcome.err "INVALID Channel Value for DVM", { st with channel := PyVal.str s }, []⟩ := by
  simp [_readDVM, PyVal.isNone, PyVal.isList, PyVal.mem, h]

/-- A string channel outside the full valid list makes `_measure` raise
before any instrument I/O, after `self.channel` has been set to it. -/
lemma measure_invalid_str_rejects (st : ScopeState) (instr : Instr) (mode : String)
    (para : Option String) (install : Bool) (s : String)
    (h : s ∉ _chanAllValidList st.maxChan) :
    _measure st instr mode para (PyVal.str s) install =
      ⟨Outcome.err "INVALID Channel Value for MEASURE", { st with channel := PyVal.str s }, []⟩ := by
  simp [_measure, PyVal.isNone, PyVal.isList, PyVal.mem, h]

/-- Claim C6: a `_measure` call with a valid channel issues exactly one
measurement query (its trace holds two queries in total — the
`MEASure:SOURce?` check plus the single measurement query, which is the last
command issued) and returns the instrument's numeric reply as-is, with no
retry even when that reply is the over-range sentinel (no hypothesis
restricts `instr.measResp`). -/
theorem c6_measure_single_query_returns_reply
    (st : ScopeState) (instr : Instr) (mode : String) (para : Option String)
    (ch : String) (install : Bool)
    (hch : ch ∈ _chanAllValidList st.maxChan) :
    (_measure st instr mode para (PyVal.str ch) install).outcome = Outcome.ok instr.measResp ∧
    (_measure st instr mode para (PyVal.str ch) install).trace.countP Cmd.isQuery = 2 ∧
    (_measure st instr mode para (PyVal.str ch) install).trace.getLast? = Option.some
      (Cmd.query (match para with
        | Option.some p =>
            if p = "" then "MEASure:" ++ mode ++ "?" else "MEASure:" ++ mode ++ "? " ++ p
        | Option.none => "MEASure:" ++ mode ++ "?")) := by
  simp only [_measure]
  simp [PyVal.isNone, PyVal.isList, PyVal.mem, hch]
  rcases para with _ | p
  · by_cases hs : instr.measSourceResp = ch <;> by_cases hi : install <;>
      simp [hs, hi, List.countP_append, List.countP_cons]
  · by_cases hp : p = "" <;>
      by_cases hs : instr.measSourceResp = ch <;> by_cases hi : install <;>
        simp [hp, hs, hi, List.countP_append, List.countP_cons]

/-- Witness for C6 with the measurement reply equal to the sentinel `99`:
the call still returns it after a single measurement query. -/
theorem c6_measure_single_query_returns_reply_witness :
    (_measure tState { tInstr with measResp := 99 } "VPP" Option.none (PyVal.str "CHAN1")
        false).outcome = Outcome.ok 99 ∧
    (_measure tState { tInstr with measResp := 99 } "VPP" Option.none (PyVal.str "CHAN1")
        false).trace.countP Cmd.isQuery = 2 ∧
    (_measure tState { tInstr with measResp := 99 } "VPP" Option.none (PyVal.str "CHAN1")
        false).trace.getLast? = Option.some (Cmd.query "MEASure:VPP?") := by
  have h := c6_measure_single_query_returns_reply tState { tInstr with measResp := 99 }
    "VPP" Option.none "CHAN1" false (by decide)
  simpa [tInstr] using h

/-- `true` of a call result that raised without issuing any instrument
command. -/
def rejectedBeforeIO (r : RunResult) : Prop :=
  r.outcome.isErr = true ∧ r.trace = []

/-- Counterexample to claim C3 as stated: the selector `"POD1"` is not in the
valid analog-channel set, yet `_measure` does not raise on it — it returns the
measurement reply normally and issues instrument commands. -/
theorem c3_counterexample_pod_not_rejected_by_measure :
    ¬ ("POD1" ∈ _chanAnaValidList tState.maxChan) ∧
    (_measure tState tInstr "VPP" Option.none (PyVal.str "POD1") false).outcome
        = Outcome.ok 7 ∧
    (_measure tState tInstr "VPP" Option.none (PyVal.str "POD1") false).outcome.isErr
        = false ∧
    (_measure tState tInstr "VPP" Option.none (PyVal.str "POD1") false).trace ≠ [] := by
  exact ⟨by decide, by decide, by decide, by decide⟩

/-- Claim C3 as amended: every list-valued selector is rejected with a
`ValueError` before any instrument command by `_readDVM`, all `measureDVM*`
wrappers, `_measure` and all `measure*` wrappers; a scalar selector outside
the valid analog set is so rejected by `_readDVM` and the `measureDVM*`
wrappers; and a scalar selector outside the full valid set (analog `CHAN<n>`
tokens plus `POD1`/`POD2`) is so rejected by `_measure` and the `measure*`
wrappers. -/
theorem c3_amended_invalid_selector_rejected_before_io
    (st : ScopeState) (instr : Instr) (elapsed : Nat → ℚ) (fuel : Nat)
    (mode mode2 : String) (timeout : Option ℚ) (para : Option String) (install : Bool) :
    (∀ l : List String,
      rejectedBeforeIO (_readDVM st instr elapsed fuel mode (PyVal.list l) timeout) ∧
      rejectedBeforeIO (measureDVMacrms st instr elapsed fuel (PyVal.list l) timeout) ∧
      rejectedBeforeIO (measureDVMdc st instr elapsed fuel (PyVal.list l) timeout) ∧
      rejectedBeforeIO (measureDVMdcrms st instr elapsed fuel (PyVal.list l) timeout) ∧
      rejectedBeforeIO (measureDVMfreq st instr elapsed fuel (PyVal.list l) timeout) ∧
      rejectedBeforeIO (_measure st instr mode2 para (PyVal.list l) install) ∧
      rejectedBeforeIO (measureBitRate st instr (PyVal.list l) install) ∧
      rejectedBeforeIO (measureBurstWidth st instr (PyVal.list l) install) ∧
      rejectedBeforeIO (measureCounterFrequency st instr (PyVal.list l) install) ∧
      rejectedBeforeIO (measurePosDutyCycle st instr (PyVal.list l) install) ∧
      rejectedBeforeIO (measureFallTime st instr (PyVal.list l) install) ∧
      rejectedBeforeIO (measureRiseTime st instr (PyVal.list l) install) ∧
      rejectedBeforeIO (measureFrequency st instr (PyVal.list l) install) ∧
      rejectedBeforeIO (measureNegDutyCycle st instr (PyVal.list l) install) ∧
      rejectedBeforeIO (measureFallEdgeCount st instr (PyVal.list l) install) ∧
      rejectedBeforeIO (measureFallPulseCount st instr (PyVal.list l) install) ∧
      rejectedBeforeIO (measureNegPulseWidth st instr (PyVal.list l) install) ∧
      rejectedBeforeIO (measureOvershoot st instr (PyVal.list l) install) ∧
      rejectedBeforeIO (measurePreshoot st instr (PyVal.list l) install) ∧
      rejectedBeforeIO (measureRiseEdgeCount st instr (PyVal.list l) install) ∧
      rejectedBeforeIO (measureRisePulseCount st instr (PyVal.list l) install) ∧
      rejectedBeforeIO (measurePosPulseWidth st instr (PyVal.list l) install) ∧
      rejectedBeforeIO (measurePeriod st instr (PyVal.list l) install) ∧
      rejectedBeforeIO (measureVoltAmplitude st instr (PyVal.list l) install) ∧
      rejectedBeforeIO (measureVoltAverage st instr (PyVal.list l) install) ∧
      rejectedBeforeIO (measureVoltRMS st instr (PyVal.list l) install) ∧
      rejectedBeforeIO (measureVoltBase st instr (PyVal.list l) install) ∧
      rejectedBeforeIO (measureVoltTop st instr (PyVal.list l) install) ∧
      rejectedBeforeIO (measureVoltMax st instr (PyVal.list l) install) ∧
      rejectedBeforeIO (measureVoltMin st instr (PyVal.list l) install) ∧
      rejectedBeforeIO (measureVoltPP st instr (PyVal.list l) install)) ∧
    (∀ s : String, s ∉ _chanAnaValidList st.maxChan →
      rejectedBeforeIO (_readDVM st instr elapsed fuel mode (PyVal.str s) timeout) ∧
      rejectedBeforeIO (measureDVMacrms st instr elapsed fuel (PyVal.str s) timeout) ∧
      rejectedBeforeIO (measureDVMdc st instr elapsed fuel (PyVal.str s) timeout) ∧
      rejectedBeforeIO (measureDVMdcrms st instr elapsed fuel (PyVal.str s) timeout) ∧
      rejectedBeforeIO (measureDVMfreq st instr elapsed fuel (PyVal.str s) timeout)) ∧
    (∀ s : String, s ∉ _chanAllValidList st.maxChan →
      rejectedBeforeIO (_measure st instr mode2 para (PyVal.str s) install) ∧
      rejectedBeforeIO (measureBitRate st instr (PyVal.str s) install) ∧
      rejectedBeforeIO (measureBurstWidth st instr (PyVal.str s) install) ∧
      rejectedBeforeIO (measureCounterFrequency st instr (PyVal.str s) install) ∧
      rejectedBeforeIO (measurePosDutyCycle st instr (PyVal.str s) install) ∧
      rejectedBeforeIO (measureFallTime st instr (PyVal.str s) install) ∧
      rejectedBeforeIO (measureRiseTime st instr (PyVal.str s) install) ∧
      rejectedBeforeIO (measureFrequency st instr (PyVal.str s) install) ∧
      rejectedBeforeIO (measureNegDutyCycle st instr (PyVal.str s) install) ∧
      rejectedBeforeIO (measureFallEdgeCount st instr (PyVal.str s) install) ∧
      rejectedBeforeIO (measureFallPulseCount st instr (PyVal.str s) install) ∧
      rejectedBeforeIO (measureNegPulseWidth st instr (PyVal.str s) install) ∧
      rejectedBeforeIO (measureOvershoot st instr (PyVal.str s) install) ∧
      rejectedBeforeIO (measurePreshoot st instr (PyVal.str s) install) ∧
      rejectedBeforeIO (measureRiseEdgeCount st instr (PyVal.str s) install) ∧
      rejectedBeforeIO (measureRisePulseCount st instr (PyVal.str s) install) ∧
      rejectedBeforeIO (measurePosPulseWidth st instr (PyVal.str s) install) ∧
      rejectedBeforeIO (measurePeriod st instr (PyVal.str s) install) ∧
      rejectedBeforeIO (measureVoltAmplitude st instr (PyVal.str s) install) ∧
      rejectedBeforeIO (measureVoltAverage st instr (PyVal.str s) install) ∧
      rejectedBeforeIO (measureVoltRMS st instr (PyVal.str s) install) ∧
      rejectedBeforeIO (measureVoltBase st instr (PyVal.str s) install) ∧
      rejectedBeforeIO (measureVoltTop st instr (PyVal.str s) install) ∧
      rejectedBeforeIO (measureVoltMax st instr (PyVal.str s) install) ∧
      rejectedBeforeIO (measureVoltMin st instr (PyVal.str s) install) ∧
      rejectedBeforeIO (measureVoltPP st instr (PyVal.str s) install)) := by
  refine ⟨fun l => ?_, fun s hs => ?_, fun s hs => ?_⟩
  · have h : ∀ m, rejectedBeforeIO (_readDVM st instr elapsed fuel m (PyVal.list l) timeout) := by
      intro m; rw [readDVM_list_rejects]; exact ⟨rfl, rfl⟩
    have hm : ∀ m p i, rejectedBeforeIO (_measure st instr m p (PyVal.list l) i) := by
      intro m p i; rw [measure_list_rejects]; exact ⟨rfl, rfl⟩
    exact ⟨h mode, h "ACRM", h "DC", h "DCRM", h "FREQ", hm mode2 para install,
      hm "BRATe" Option.none install,
      hm "BWIDth" Option.none install,
      hm "COUNter" Option.none false,
      hm "DUTYcycle" Option.none install,
      hm "FALLtime" Option.none install,
      hm "RISetime" Option.none install,
      hm "FREQ" Option.none install,
      hm "NDUTy" Option.none install,
      hm "NEDGes" Option.none install,
      hm "NPULses" Option.none install,
      hm "NWIDth" Option.none install,
      hm "OVERshoot" Option.none install,
      hm "PREShoot" Option.none install,
      hm "PEDGes" Option.none install,
      hm "PPULses" Option.none install,
      hm "PWIDth" Option.none install,
      hm "PERiod" Option.none install,
      hm "VAMPlitude" Option.none install,
      hm "VAVerage" (Option.some "DISPlay") install,
      hm "VRMS" (Option.some "DISPlay") install,
      hm "VBASe" Option.none install,
      hm "VTOP" Option.none install,
      hm "VMAX" Option.none install,
      hm "VMIN" Option.none install,
      hm "VPP" Option.none install⟩
  · have h : ∀ m, rejectedBeforeIO (_readDVM st instr elapsed fuel m (PyVal.str s) timeout) := by
      intro m; rw [readDVM_invalid_str_rejects st instr elapsed fuel m timeout s hs]
      exact ⟨rfl, rfl⟩
    exact ⟨h mode, h "ACRM", h "DC", h "DCRM", h "FREQ"⟩
  · have hm : ∀ m p i, rejectedBeforeIO (_measure st instr m p (PyVal.str s) i) := by
      intro m p i; rw [measure_invalid_str_rejects st instr m p i s hs]
      exact ⟨rfl, rfl⟩
    exact ⟨hm mode2 para install,
      hm "BRATe" Option.none install,
      hm "BWIDth" Option.none install,
      hm "COUNter" Option.none false,
      hm "DUTYcycle" Option.none install,
      hm "FALLtime" Option.none install,
      hm "RISetime" Option.none install,
      hm "FREQ" Option.none install,
      hm "NDUTy" Option.none install,
      hm "NEDGes" Option.none install,
      hm "NPULses" Option.none install,
      hm "NWIDth" Option.none install,
      hm "OVERshoot" Option.none install,
      hm "PREShoot" Option.none install,
      hm "PEDGes" Option.none install,
      hm "PPULses" Option.none install,
      hm "PWIDth" Option.none install,
      hm "PERiod" Option.none install,
      hm "VAMPlitude" Option.none install,
      hm "VAVerage" (Option.some "DISPlay") install,
      hm "VRMS" (Option.some "DISPlay") install,
      hm "VBASe" Option.none install,
      hm "VTOP" Option.none install,
      hm "VMAX" Option.none install,
      hm "VMIN" Option.none install,
      hm "VPP" Option.none install⟩

/-- Witness for the amended C3: a list selector is rejected by `_readDVM`
with an empty trace, and the bogus scalar selector `"BOGUS"` is rejected by
both `_readDVM` and `_measure` with empty traces. -/
theorem c3_amended_invalid_selector_rejected_before_io_witness :
    rejectedBeforeIO (_readDVM tState tInstr tElapsed 4 "DC" (PyVal.list ["1", "2"]) Option.none) ∧
    rejectedBeforeIO (_readDVM tState tInstr tElapsed 4 "DC" (PyVal.str "BOGUS") Option.none) ∧
    rejectedBeforeIO (_measure tState tInstr "VPP" Option.none (PyVal.str "BOGUS") false) := by
  have h := c3_amended_invalid_selector_rejected_before_io tState tInstr tElapsed 4
    "DC" "VPP" Option.none Option.none false
  exact ⟨(h.1 ["1", "2"]).1, (h.2.1 "BOGUS" (by decide)).1, (h.2.2 "BOGUS" (by decide)).1⟩

/-- Claim C10: a non-list channel argument outside the valid set is assigned
to `self.channel` before the `ValueError` is raised, in both `_readDVM` and
`_measure`; the failed call therefore mutates the object's current-channel
state, and a subsequent call with `channel=None` (possibly with a different
instrument script, clock, fuel, mode or parameters) raises again. -/
theorem c10_invalid_channel_mutates_state_before_raise
    (st : ScopeState) (instr instr2 : Instr) (elapsed elapsed2 : Nat → ℚ)
    (fuel fuel2 : Nat) (mode mode2 mode3 : String) (timeout timeout2 : Option ℚ)
    (para : Option String) (install : Bool) (s : String)
    (hana : s ∉ _chanAnaValidList st.maxChan)
    (hall : s ∉ _chanAllValidList st.maxChan) :
    ((_readDVM st instr elapsed fuel mode (PyVal.str s) timeout).outcome.isErr = true ∧
     (_readDVM st instr elapsed fuel mode (PyVal.str s) timeout).state.channel = PyVal.str s ∧
     (_readDVM (_readDVM st instr elapsed fuel mode (PyVal.str s) timeout).state
        instr2 elapsed2 fuel2 mode2 PyVal.none timeout2).outcome.isErr = true) ∧
    ((_measure st instr mode3 para (PyVal.str s) install).outcome.isErr = true ∧
     (_measure st instr mode3 para (PyVal.str s) install).state.channel = PyVal.str s ∧
     (_measure (_measure st instr mode3 para (PyVal.str s) install).state
        instr2 mode2 para PyVal.none install).outcome.isErr = true) := by
  rw [readDVM_invalid_str_rejects st instr elapsed fuel mode timeout s hana,
    measure_invalid_str_rejects st instr mode3 para install s hall]
  refine ⟨⟨by simp [Outcome.isErr], by simp, ?_⟩, ⟨by simp [Outcome.isErr], by simp, ?_⟩⟩
  · simp [_readDVM, PyVal.isNone, PyVal.isList, PyVal.mem, hana, Outcome.isErr]
  · simp [_measure, PyVal.isNone, PyVal.isList, PyVal.mem, hall, Outcome.isErr]

/-- Witness for C10 at the bogus selector `"BOGUS"`. -/
theorem c10_invalid_channel_mutates_state_before_raise_witness :
    ((_readDVM tState tInstr tElapsed 4 "DC" (PyVal.str "BOGUS") Option.none).outcome.isErr = true ∧
     (_readDVM tState tInstr tElapsed 4 "DC" (PyVal.str "BOGUS") Option.none).state.channel
        = PyVal.str "BOGUS" ∧
     (_readDVM (_readDVM tState tInstr tElapsed 4 "DC" (PyVal.str "BOGUS") Option.none).state
        tInstr tElapsed 4 "DC" PyVal.none Option.none).outcome.isErr = true) ∧
    ((_measure tState tInstr "VPP" Option.none (PyVal.str "BOGUS") false).outcome.isErr = true ∧
     (_measure tState tInstr "VPP" Option.none (PyVal.str "BOGUS") false).state.channel
        = PyVal.str "BOGUS" ∧
     (_measure (_measure tState tInstr "VPP" Option.none (PyVal.str "BOGUS") false).state
        tInstr "DC" Option.none PyVal.none false).outcome.isErr = true) :=
  c10_invalid_channel_mutates_state_before_raise tState tInstr tInstr tElapsed tElapsed
    4 4 "DC" "DC" "VPP" Option.none Option.none Option.none false "BOGUS"
    (by decide) (by decide)

/-- The bookmark-set commands for the translated token and for the raw color
name are different strings (their lengths differ by the two extra characters
of `CHAN1` over `ch1`), whatever the annotation text. -/
lemma bookmarkSetCmd_chan1_ne_ch1 (text : String) :
    bookmarkSetCmd text "CHAN1" ≠ bookmarkSetCmd text "ch1" := by
  intro h
  have hl := congrArg String.length h
  simp [bookmarkSetCmd, String.length_append] at hl
  exact absurd hl (by decide)

/-- Claim C9: on firmware `> 2.60`, `annotateColor` with color `"ch1"` saves
the color and emits exactly the two bookmark position writes followed by one
`DISPlay:BOOKmark1:SET` command whose color field is the translated token
`"CHAN1"`; the command with the raw `"ch1"` in the color field is a different
string and is not emitted. -/
theorem c9_annotateColor_translates_ch1
    (st : ScopeState) (hv : (2.60 : ℚ) < st.version) :
    annotateColor st (Option.some "ch1") =
      ⟨Outcome.ok 0, { st with annotationColor := "ch1" },
       [Cmd.write "DISPlay:BOOKmark1:XPOSition 0.015",
        Cmd.write "DISPlay:BOOKmark1:YPOSition 0.06",
        Cmd.write (bookmarkSetCmd st.annotationText "CHAN1")]⟩ ∧
    Cmd.write (bookmarkSetCmd st.annotationText "CHAN1")
      ≠ Cmd.write (bookmarkSetCmd st.annotationText "ch1") := by
  have hl : _colorNameOldtoNew.lookup "ch1" = Option.some "CHAN1" := by decide
  constructor
  · simp only [annotateColor, if_pos hv]
    rw [hl]
    rfl
  · intro h
    exact bookmarkSetCmd_chan1_ne_ch1 st.annotationText (Cmd.write.inj h)

/-- Witness for C9 at firmware version 3 (`tState`). -/
theorem c9_annotateColor_translates_ch1_witness :
    annotateColor tState (Option.some "ch1") =
      ⟨Outcome.ok 0, { tState with annotationColor := "ch1" },
       [Cmd.write "DISPlay:BOOKmark1:XPOSition 0.015",
        Cmd.write "DISPlay:BOOKmark1:YPOSition 0.06",
        Cmd.write (bookmarkSetCmd tState.annotationText "CHAN1")]⟩ ∧
    Cmd.write (bookmarkSetCmd tState.annotationText "CHAN1")
      ≠ Cmd.write (bookmarkSetCmd tState.annotationText "ch1") :=
  c9_annotateColor_translates_ch1 tState (by norm_num [tState])

/-- Counterexample to claim C7 as stated: for `x=[0,1,2]`, `y=[10,20,30]` the
written file content is not the three plain-decimal lines
`0.0,10.0` / `1.0,20.0` / `2.0,30.0` (with or without a trailing newline) —
`numpy.savetxt`'s default `%.18e` format produces scientific notation. -/
theorem c7_counterexample_csv_not_plain_decimal :
    (oscopecsvMain [0, 1, 2] [10, 20, 30]).written
        ≠ Option.some "0.0,10.0\n1.0,20.0\n2.0,30.0\n" ∧
    (oscopecsvMain [0, 1, 2] [10, 20, 30]).written
        ≠ Option.some "0.0,10.0\n1.0,20.0\n2.0,30.0" := by
  exact ⟨by decide, by decide⟩

/-- Claim C7 as amended: for `x=[0,1,2]`, `y=[10,20,30]` the converter writes
exactly three `\n`-terminated lines pairing `x i` with `y i`, each value in
`numpy.savetxt`'s default `%.18e` scientific notation, prints no error, and
exits with code 0. -/
theorem c7_amended_csv_writes_e18_rows :
    (oscopecsvMain [0, 1, 2] [10, 20, 30]).written = Option.some
      ("0.000000000000000000e+00,1.000000000000000000e+01\n" ++
       "1.000000000000000000e+00,2.000000000000000000e+01\n" ++
       "2.000000000000000000e+00,3.000000000000000000e+01\n") ∧
    (oscopecsvMain [0, 1, 2] [10, 20, 30]).errors = [] ∧
    (oscopecsvMain [0, 1, 2] [10, 20, 30]).exitCode = 0 := by
  exact ⟨by decide, by decide, by decide⟩

/-- Claim C8: whenever the two arrays have different lengths the converter
writes no output file, prints exactly the length-mismatch error message, and
ends with the implicit exit code 0 (no explicit non-zero exit). -/
theorem c8_csv_mismatch_no_output_no_exit_code
    (x y : List ℚ) (h : x.length ≠ y.length) :
    (oscopecsvMain x y).written = Option.none ∧
    (oscopecsvMain x y).errors = [csvMismatchMsg x.length y.length] ∧
    (oscopecsvMain x y).errors ≠ [] ∧
    (oscopecsvMain x y).exitCode = 0 := by
  simp [oscopecsvMain, h]

/-- Witness for C8 at `x=[0,1,2]`, `y=[10,20]`. -/
theorem c8_csv_mismatch_no_output_no_exit_code_witness :
    (oscopecsvMain [0, 1, 2] [10, 20]).written = Option.none ∧
    (oscopecsvMain [0, 1, 2] [10, 20]).errors
        = ["ERROR: Number of x (3) and y (2) values do not match!"] ∧
    (oscopecsvMain [0, 1, 2] [10, 20]).exitCode = 0 := by
  have h := c8_csv_mismatch_no_output_no_exit_code [0, 1, 2] [10, 20] (by decide)
  refine ⟨h.1, ?_, h.2.2.2⟩
  rw [h.2.1]
  decide

end OscopeScpi
